import Mathlib

/-!
Verification of `udev-utils.c` from libudev-devd: a shallow embedding of the
subsystem dispatch table, the evdev capability classifier, the capability
gate, and the parent-descriptor synthesizer, with theorems checking the
natural-language specification against the code.

Capability bitmaps are embedded as natural numbers viewed as bit masks
(`Nat.testBit`), property lists as association lists, and the sysctl /
ioctl environment as explicit `Option`-valued inputs.
-/

namespace UdevDevd

/-! ## Input-event constants (from linux/input-event-codes.h) -/

def BTN_MISC : Nat := 0x100
def BTN_LEFT : Nat := 0x110
def BTN_MIDDLE : Nat := 0x112
def BTN_JOYSTICK : Nat := 0x120
def BTN_TOOL_PEN : Nat := 0x140
def BTN_TOOL_FINGER : Nat := 0x145
def BTN_TOUCH : Nat := 0x14a
def BTN_STYLUS : Nat := 0x14b
def BTN_STYLUS2 : Nat := 0x14c
def KEY_CNT : Nat := 0x300
def REL_X : Nat := 0x00
def REL_Y : Nat := 0x01
def REL_CNT : Nat := 0x10
def ABS_X : Nat := 0x00
def ABS_Y : Nat := 0x01
def ABS_PRESSURE : Nat := 0x18
def ABS_MT_SLOT : Nat := 0x2f
def ABS_CNT : Nat := 0x40

def BUS_PCI : Nat := 0x01
def BUS_USB : Nat := 0x03
def BUS_VIRTUAL : Nat := 0x06
def BUS_I8042 : Nat := 0x11

def PS2_KEYBOARD_VENDOR : Nat := 0x001
def PS2_KEYBOARD_PRODUCT : Nat := 0x001
def PS2_MOUSE_VENDOR : Nat := 0x002
def PS2_MOUSE_GENERIC_PRODUCT : Nat := 0x001

/-! ## Bitmap primitives

`bit_is_set` embeds C `bit_is_set(array, bit)` and `bit_find` embeds
`bit_find(array, start, stop)` (any bit set in `[start, stop)`), with the
word array replaced by the mask's binary expansion. -/

def bit_is_set (m : Nat) (bit : Nat) : Bool := m.testBit bit

def bit_find (m : Nat) (start stop : Nat) : Bool :=
  (List.range' start (stop - start)).any (fun i => bit_is_set m i)

/-! ## Device classification -/

inductive InputType where
  | IT_NONE
  | IT_KEYBOARD
  | IT_MOUSE
  | IT_TOUCHPAD
  | IT_TOUCHSCREEN
  | IT_JOYSTICK
  | IT_TABLET
deriving DecidableEq, Repr

open InputType

/-- Fall-through tail of the decision tree in `create_evdev_handler`
(lines 379-385): Keyboard when ordinary keys, else Mouse when any
relative/absolute axis or (possibly forced) button, else None. -/
def classifyTail (has_keys has_rel_axes has_abs_axes has_buttons : Bool) : InputType :=
  if has_keys then IT_KEYBOARD
  else if has_rel_axes || has_abs_axes || has_buttons then IT_MOUSE
  else IT_NONE

/-- The absolute-X/Y sub-block of `create_evdev_handler` (lines 353-376):
returns `some t` when a terminal classification (goto detected) is reached,
`none` when control falls through. -/
def classifyAbsXY (has_lmr abs_xy pen_stylus pressure_or_touch tool_finger rel_xy : Bool) :
    Option InputType :=
  if abs_xy then
    if pen_stylus then some IT_TABLET
    else if pressure_or_touch then
      some (if has_lmr || tool_finger then IT_TOUCHPAD else IT_TOUCHSCREEN)
    else if !rel_xy && has_lmr then some IT_TOUCHSCREEN
    else none
  else none

/-- Core decision tree of `create_evdev_handler` (lines 342-385) over the
boolean capability summaries, with the source's goto structure converted to
expressions; `has_buttons` is forced to true in the multitouch branch when
the joystick bit is absent, exactly as in the source. -/
def classifyCore (has_keys has_buttons has_lmr has_rel_axes has_abs_axes has_mt
    btn_joystick abs_xy pen_stylus pressure_or_touch tool_finger rel_xy : Bool) : InputType :=
  if has_abs_axes then
    if has_mt && !has_buttons then
      if btn_joystick then IT_JOYSTICK
      else
        match classifyAbsXY has_lmr abs_xy pen_stylus pressure_or_touch tool_finger rel_xy with
        | some t => t
        | none => classifyTail has_keys has_rel_axes has_abs_axes true
    else
      match classifyAbsXY has_lmr abs_xy pen_stylus pressure_or_touch tool_finger rel_xy with
      | some t => t
      | none => classifyTail has_keys has_rel_axes has_abs_axes has_buttons
  else classifyTail has_keys has_rel_axes has_abs_axes has_buttons

/-- The classifier of `create_evdev_handler`: capability summaries computed
from the three bitmaps (lines 335-340) fed into the decision tree. -/
def classify (key_bits rel_bits abs_bits : Nat) : InputType :=
  classifyCore
    (bit_find key_bits 0 BTN_MISC)
    (bit_find key_bits BTN_MISC BTN_JOYSTICK)
    (bit_find key_bits BTN_LEFT (BTN_MIDDLE + 1))
    (bit_find rel_bits 0 REL_CNT)
    (bit_find abs_bits 0 ABS_CNT)
    (bit_find abs_bits ABS_MT_SLOT ABS_CNT)
    (bit_is_set key_bits BTN_JOYSTICK)
    (bit_is_set abs_bits ABS_X && bit_is_set abs_bits ABS_Y)
    (bit_is_set key_bits BTN_TOOL_PEN || bit_is_set key_bits BTN_STYLUS ||
      bit_is_set key_bits BTN_STYLUS2)
    (bit_is_set abs_bits ABS_PRESSURE || bit_is_set key_bits BTN_TOUCH)
    (bit_is_set key_bits BTN_TOOL_FINGER)
    (bit_is_set rel_bits REL_X && bit_is_set rel_bits REL_Y)

/-- Decision tree transcribed from the specification's words (spec 4.3
steps 2-3), written independently of the source's goto structure: step 2a
(multitouch without buttons: Joystick on the joystick-button bit, else force
has_buttons), step 2b (absolute X and Y: pen/stylus yields Tablet; pressure
or touch yields Touchpad when lmr or tool-finger else Touchscreen; absent
relative X/Y with lmr yields Touchscreen), step 3 fallback. -/
def classifySpecCore (has_keys has_buttons has_lmr has_rel_axes has_abs_axes has_mt
    btn_joystick abs_xy pen_stylus pressure_or_touch tool_finger rel_xy : Bool) : InputType :=
  let step3 := fun (hb : Bool) =>
    if has_keys then IT_KEYBOARD
    else if has_rel_axes || has_abs_axes || hb then IT_MOUSE
    else IT_NONE
  if has_abs_axes && has_mt && !has_buttons && btn_joystick then IT_JOYSTICK
  else
    let hb := if has_abs_axes && has_mt && !has_buttons then true else has_buttons
    if has_abs_axes && abs_xy && pen_stylus then IT_TABLET
    else if has_abs_axes && abs_xy && pressure_or_touch then
      if has_lmr || tool_finger then IT_TOUCHPAD else IT_TOUCHSCREEN
    else if has_abs_axes && abs_xy && !rel_xy && has_lmr then IT_TOUCHSCREEN
    else step3 hb

/-- Spec-side classifier: the spec's decision tree applied to the same
capability summaries. -/
def classifySpec (key_bits rel_bits abs_bits : Nat) : InputType :=
  classifySpecCore
    (bit_find key_bits 0 BTN_MISC)
    (bit_find key_bits BTN_MISC BTN_JOYSTICK)
    (bit_find key_bits BTN_LEFT (BTN_MIDDLE + 1))
    (bit_find rel_bits 0 REL_CNT)
    (bit_find abs_bits 0 ABS_CNT)
    (bit_find abs_bits ABS_MT_SLOT ABS_CNT)
    (bit_is_set key_bits BTN_JOYSTICK)
    (bit_is_set abs_bits ABS_X && bit_is_set abs_bits ABS_Y)
    (bit_is_set key_bits BTN_TOOL_PEN || bit_is_set key_bits BTN_STYLUS ||
      bit_is_set key_bits BTN_STYLUS2)
    (bit_is_set abs_bits ABS_PRESSURE || bit_is_set key_bits BTN_TOUCH)
    (bit_is_set key_bits BTN_TOOL_FINGER)
    (bit_is_set rel_bits REL_X && bit_is_set rel_bits REL_Y)

lemma classifyCore_eq_specCore (b1 b2 b3 b4 b5 b6 b7 b8 b9 b10 b11 b12 : Bool) :
    classifyCore b1 b2 b3 b4 b5 b6 b7 b8 b9 b10 b11 b12 =
      classifySpecCore b1 b2 b3 b4 b5 b6 b7 b8 b9 b10 b11 b12 := by
  revert b1 b2 b3 b4 b5 b6 b7 b8 b9 b10 b11 b12
  decide

/-! ## Property markers (`set_input_device_type`, lines 219-250) -/

/-- Property insertions performed by `set_input_device_type`: the primary
ID_INPUT marker followed by the type-specific markers of the switch. -/
def set_input_device_type_markers (input_type : InputType) : List (String × String) :=
  ("ID_INPUT", "1") ::
    (match input_type with
     | IT_KEYBOARD => [("ID_INPUT_KEY", "1"), ("ID_INPUT_KEYBOARD", "1")]
     | IT_MOUSE => [("ID_INPUT_MOUSE", "1")]
     | IT_TOUCHPAD => [("ID_INPUT_MOUSE", "1"), ("ID_INPUT_TOUCHPAD", "1")]
     | IT_TOUCHSCREEN => [("ID_INPUT_TOUCHSCREEN", "1")]
     | IT_JOYSTICK => [("ID_INPUT_JOYSTICK", "1")]
     | IT_TABLET => [("ID_INPUT_TABLET", "1")]
     | IT_NONE => [])

/-! ## Parent descriptor synthesis (`create_xorg_parent`, lines 252-276) -/

/-- A synthesized parent device: its property list and sysattr list, in
insertion order. -/
structure XorgParent where
  sysname : String
  props : List (String × String)
  sysattrs : List (String × String)
deriving DecidableEq, Repr

/-- Embedding of `create_xorg_parent` (lines 252-276) in the case where the
underlying device allocation succeeds.  Note the source inserts `product`
(not `pnp_id`) as the "id" sysattr whenever `pnp_id` is non-NULL; the
embedding reproduces that verbatim.  (Every caller that passes a non-NULL
`pnp_id` also passes a non-NULL `product`, so `Option.getD` never supplies
its default on a reachable input.) -/
def create_xorg_parent (sysname name : String) (product pnp_id : Option String) :
    XorgParent :=
  { sysname := sysname
    props := [("NAME", name)] ++ (match product with | some p => [("PRODUCT", p)] | none => [])
    sysattrs := [("name", name)] ++
      (match pnp_id with | some _ => [("id", product.getD "")] | none => []) }

/-! ## String helpers used by the handlers -/

/-- Truncation at the first comma: the effect of the strchrnul statements at
lines 392 and 442, which write a string terminator at the first comma of the
buffer, or at its end when there is none. -/
def truncAtComma (s : String) : String := String.mk (s.data.takeWhile (fun c => c ≠ ','))

/-- Lowercase hexadecimal rendering, as produced by the `%x` conversions of
`snprintf` at lines 394 and 488. -/
def hexStr (n : Nat) : String := String.mk (Nat.toDigits 16 n)

/-! ## The evdev handler (`create_evdev_handler`, lines 301-404) -/

/-- The identity record filled by the EVIOCGID ioctl. -/
structure InputId where
  bustype : Nat
  vendor : Nat
  product : Nat
  version : Nat
deriving DecidableEq, Repr

/-- The product string built at line 394:
"bustype/vendor/product/version" in hexadecimal. -/
def evdevProductString (id : InputId) : String :=
  hexStr id.bustype ++ "/" ++ hexStr id.vendor ++ "/" ++ hexStr id.product ++ "/" ++
    hexStr id.version

/-- Result of a successful run of `create_evdev_handler` past the ioctls:
the markers inserted into the device's property list and the parent set on
the device. -/
structure EvdevOutcome where
  markers : List (String × String)
  parent : XorgParent
deriving DecidableEq, Repr

/-- Embedding of `create_evdev_handler` (lines 335-399) after the ioctls
succeed, as a function of the three capability bitmaps, the kernel-reported
name, the physical-location string and the identity record.  Returns `none`
exactly when the classifier yields IT_NONE (goto bail_out at line 385: no
markers are inserted and no parent is created). -/
def create_evdev_handler_model (key_bits rel_bits abs_bits : Nat)
    (name phys : String) (id : InputId) : Option EvdevOutcome :=
  let input_type := classify key_bits rel_bits abs_bits
  if input_type = IT_NONE then none
  else
    let sysname := if phys = "" then "uinput" else phys
    some { markers := set_input_device_type_markers input_type
           parent := create_xorg_parent sysname (truncAtComma name)
             (some (evdevProductString id)) none }

/-! ## Shell glob matching (libc `fnmatch` with flags 0, as called at
line 142)

The matcher supports the constructs appearing in the rule table's patterns:
literal characters, `*`, `?`, and bracket classes with ranges and optional
leading negation.  Backslash escaping is not modelled (no table pattern
contains one).  Recursions are driven by an explicit fuel argument, always
called with enough fuel, so that the definitions stay structural and
kernel-evaluable. -/

inductive GlobTok where
  | lit (c : Char)
  | anyChar
  | anySeq
  | cls (neg : Bool) (items : List (Char × Char))
deriving DecidableEq, Repr

/-- Scan the items of a bracket class after the opening bracket (and after
an optional leading negation), up to the closing bracket; a single
character c stands for the degenerate range c-c, and a trailing dash is
literal.  Returns `none` on an unterminated class. -/
def scanClsItems : List Char → List (Char × Char) → Option (List (Char × Char) × List Char)
  | [], _ => none
  | ']' :: rest, acc => some (acc.reverse, rest)
  | a :: '-' :: ']' :: rest, acc => some ((('-', '-') :: (a, a) :: acc).reverse, rest)
  | a :: '-' :: b :: rest, acc => scanClsItems rest ((a, b) :: acc)
  | a :: rest, acc => scanClsItems rest ((a, a) :: acc)

/-- Scan a full bracket class: optional leading negation mark, then a
closing bracket in first position counts as a literal member. -/
def scanCls (cs : List Char) : Option (Bool × List (Char × Char) × List Char) :=
  let (neg, cs1) := match cs with
    | '!' :: r => (true, r)
    | r => (false, r)
  let scanned := match cs1 with
    | ']' :: r => scanClsItems r [(']', ']')]
    | r => scanClsItems r []
  match scanned with
  | some (items, rest) => some (neg, items, rest)
  | none => none

/-- Tokenize a glob pattern; an unterminated bracket class degrades to a
literal opening bracket, as in fnmatch. -/
def parseGlobF : Nat → List Char → List GlobTok
  | 0, _ => []
  | _ + 1, [] => []
  | f + 1, '*' :: r => GlobTok.anySeq :: parseGlobF f r
  | f + 1, '?' :: r => GlobTok.anyChar :: parseGlobF f r
  | f + 1, '[' :: r =>
    (match scanCls r with
     | some (neg, items, rest) => GlobTok.cls neg items :: parseGlobF f rest
     | none => GlobTok.lit '[' :: parseGlobF f r)
  | f + 1, c :: r => GlobTok.lit c :: parseGlobF f r

/-- Does a character fall in a bracket class? -/
def matchCls (neg : Bool) (items : List (Char × Char)) (c : Char) : Bool :=
  let inRange := items.any (fun ab => decide (ab.1 ≤ c ∧ c ≤ ab.2))
  if neg then !inRange else inRange

/-- Token-list against character-list glob matching. -/
def globMatchF : Nat → List GlobTok → List Char → Bool
  | 0, _, _ => false
  | _ + 1, [], [] => true
  | _ + 1, [], _ :: _ => false
  | f + 1, GlobTok.anySeq :: ts, [] => globMatchF f ts []
  | f + 1, GlobTok.anySeq :: ts, c :: s =>
    globMatchF f ts (c :: s) || globMatchF f (GlobTok.anySeq :: ts) s
  | _ + 1, GlobTok.anyChar :: _, [] => false
  | f + 1, GlobTok.anyChar :: ts, _ :: s => globMatchF f ts s
  | _ + 1, GlobTok.lit _ :: _, [] => false
  | f + 1, GlobTok.lit a :: ts, c :: s => a == c && globMatchF f ts s
  | _ + 1, GlobTok.cls _ _ :: _, [] => false
  | f + 1, GlobTok.cls neg items :: ts, c :: s => matchCls neg items c && globMatchF f ts s

/-- Embedding of `fnmatch(pattern, path, 0)` restricted to the constructs
used by the rule table. -/
def fnmatch (pattern path : String) : Bool :=
  globMatchF (pattern.data.length + path.data.length + 1)
    (parseGlobF pattern.data.length pattern.data) path.data

/-! ## The subsystem rule table (lines 74-134) -/

/-- The handlers referenced by the table, one constructor per source
function. -/
inductive Handler where
  | create_evdev_handler
  | create_keyboard_handler
  | create_mouse_handler
  | create_joystick_handler
  | create_touchpad_handler
  | create_touchscreen_handler
  | create_sysmouse_handler
  | create_kbdmux_handler
deriving DecidableEq, Repr

/-- One row of `struct subsystem_config` (lines 74-79). -/
structure SubsystemConfig where
  subsystem : String
  syspath : String
  flags : Nat
  create_handler : Option Handler
deriving DecidableEq, Repr

def SCFLAG_SKIP_IF_EVDEV : Nat := 0x01

/-- Modelled from the spec: the fixed device-node root the patterns are
anchored under (macro DEV_PATH_ROOT, defined in a header that is not under
src/); the spec's examples place event and ukbd nodes directly under the
system device directory. -/
def DEV_PATH_ROOT : String := "/dev"

/-- The `subsystems` table (lines 95-134), in declaration order, for a
build with the uniform capability interface available (HAVE_LINUX_INPUT_H),
which is the configuration the spec describes. -/
def subsystems : List SubsystemConfig :=
  [ ⟨"input", DEV_PATH_ROOT ++ "/input/event[0-9]*", 0, some Handler.create_evdev_handler⟩,
    ⟨"input", DEV_PATH_ROOT ++ "/ukbd[0-9]*", SCFLAG_SKIP_IF_EVDEV,
      some Handler.create_keyboard_handler⟩,
    ⟨"input", DEV_PATH_ROOT ++ "/atkbd[0-9]*", SCFLAG_SKIP_IF_EVDEV,
      some Handler.create_keyboard_handler⟩,
    ⟨"input", DEV_PATH_ROOT ++ "/kbdmux[0-9]*", SCFLAG_SKIP_IF_EVDEV,
      some Handler.create_kbdmux_handler⟩,
    ⟨"input", DEV_PATH_ROOT ++ "/ums[0-9]*", SCFLAG_SKIP_IF_EVDEV,
      some Handler.create_mouse_handler⟩,
    ⟨"input", DEV_PATH_ROOT ++ "/psm[0-9]*", SCFLAG_SKIP_IF_EVDEV,
      some Handler.create_mouse_handler⟩,
    ⟨"input", DEV_PATH_ROOT ++ "/joy[0-9]*", 0, some Handler.create_joystick_handler⟩,
    ⟨"input", DEV_PATH_ROOT ++ "/atp[0-9]*", 0, some Handler.create_touchpad_handler⟩,
    ⟨"input", DEV_PATH_ROOT ++ "/wsp[0-9]*", 0, some Handler.create_touchpad_handler⟩,
    ⟨"input", DEV_PATH_ROOT ++ "/uep[0-9]*", 0, some Handler.create_touchscreen_handler⟩,
    ⟨"input", DEV_PATH_ROOT ++ "/sysmouse", SCFLAG_SKIP_IF_EVDEV,
      some Handler.create_sysmouse_handler⟩,
    ⟨"input", DEV_PATH_ROOT ++ "/vboxguest", 0, some Handler.create_mouse_handler⟩ ]

/-- Embedding of `get_subsystem_config_by_syspath` (lines 136-146): the
first table row whose pattern matches the path. -/
def get_subsystem_config_by_syspath (path : String) : Option SubsystemConfig :=
  subsystems.find? (fun sc => fnmatch sc.syspath path)

/-- Resolution transcribed from the specification's words: scan the rules
in fixed declaration order and return the first whose pattern glob-matches
the path, nothing when none matches. -/
def resolveSpec (rules : List SubsystemConfig) (path : String) : Option SubsystemConfig :=
  match rules with
  | [] => none
  | r :: rs => if fnmatch r.syspath path then some r else resolveSpec rs path

/-! ## The capability gate (`kernel_has_evdev_enabled`, lines 148-162) -/

/-- The process-wide cache: `none` models the sentinel -1 of the static
variable, `some v` a stored successful read. -/
structure GateState where
  enabled : Option Bool
deriving DecidableEq, Repr

/-- One call to `kernel_has_evdev_enabled`, with the outcome of the sysctl
query supplied as an input (`none` = query fails).  Returns the new cache
state, the returned value, and whether the sysctl was consulted. -/
def kernel_has_evdev_enabled (st : GateState) (query : Option Bool) :
    GateState × Bool × Bool :=
  match st.enabled with
  | some v => (st, v, false)
  | none =>
    match query with
    | none => (st, false, true)
    | some v => ({ enabled := some v }, v, true)

/-- A sequence of calls to the gate: returns the list of (returned value,
queried) pairs and the final cache state. -/
def gateRun (st : GateState) : List (Option Bool) → List (Bool × Bool) × GateState
  | [] => ([], st)
  | q :: qs =>
    let (st1, v, used) := kernel_has_evdev_enabled st q
    let (out, stFin) := gateRun st1 qs
    ((v, used) :: out, stFin)

/-! ## Dispatch (`invoke_create_handler`, lines 201-217) -/

/-- Embedding of `invoke_create_handler`: which handler runs for a device
path, given the gate's report for this call (the handler actually invoked,
or `none` when the function returns without invoking one). -/
def invoke_create_handler (path : String) (evdev_enabled : Bool) : Option Handler :=
  match get_subsystem_config_by_syspath path with
  | none => none
  | some sc =>
    if sc.create_handler = none then none
    else if sc.flags &&& SCFLAG_SKIP_IF_EVDEV ≠ 0 ∧ evdev_enabled then none
    else sc.create_handler

/-! ## Path accessors (lines 187-199) -/

/-- Embedding of `get_devpath_by_syspath` (lines 187-192): returns its
argument. -/
def get_devpath_by_syspath (syspath : String) : String := syspath

/-- Embedding of `get_syspath_by_devpath` (lines 194-199): returns its
argument. -/
def get_syspath_by_devpath (devpath : String) : String := devpath

/-! ## Legacy parent synthesis (`syspathlen_wo_units` and `set_parent`,
lines 407-494) -/

/-- Embedding of `syspathlen_wo_units` (lines 407-418): the length of the
path with its maximal run of trailing decimal digits removed. -/
def syspathlen_wo_units (path : String) : Nat :=
  path.length - (path.data.reverse.takeWhile (fun c => decide ('0' ≤ c ∧ c ≤ '9'))).length

/-- Modelled from the spec: `get_kern_prop_value` is defined in utils.c,
which is not under src/.  The spec describes the plug-and-play info blob as
a delimited sequence of key=value pairs; the blob is embedded in its parsed
form, a list of (key, value) pairs in blob order, and the lookup returns
the value of the first pair carrying the key. -/
def get_kern_prop_value (pnpinfo : List (String × String)) (key : String) : Option String :=
  match pnpinfo.find? (fun kv => kv.1 = key) with
  | some kv => some kv.2
  | none => none

/-- Value of a decimal, hexadecimal or octal digit, bounded by the base. -/
def digitVal (base : Nat) (c : Char) : Option Nat :=
  let v : Option Nat :=
    if '0' ≤ c ∧ c ≤ '9' then some (c.toNat - '0'.toNat)
    else if 'a' ≤ c ∧ c ≤ 'f' then some (c.toNat - 'a'.toNat + 10)
    else if 'A' ≤ c ∧ c ≤ 'F' then some (c.toNat - 'A'.toNat + 10)
    else none
  match v with
  | some d => if d < base then some d else none
  | none => none

/-- Accumulate leading digits of the given base, ignoring the rest. -/
def parseDigits (base : Nat) : List Char → Nat → Nat
  | [], acc => acc
  | c :: r, acc =>
    match digitVal base c with
    | some d => parseDigits base r (acc * base + d)
    | none => acc

/-- Embedding of `strtol(s, NULL, 0)` as used at lines 464-469 on
non-negative device identifiers: skip leading blanks and an optional plus
sign, then a 0x/0X prefix selects base 16, a leading zero base 8, and
base 10 otherwise; parsing stops at the first non-digit.  (A minus sign is
not modelled: the parsed values are vendor/product identifiers.) -/
def strtol0 (s : String) : Nat :=
  let cs := s.data.dropWhile (fun c => c = ' ' ∨ c = '\t')
  let cs := match cs with
    | '+' :: r => r
    | r => r
  match cs with
  | '0' :: 'x' :: r => parseDigits 16 r 0
  | '0' :: 'X' :: r => parseDigits 16 r 0
  | '0' :: r => parseDigits 8 r 0
  | r => parseDigits 10 r 0

/-- The bus/vendor/product precedence chain of `set_parent`
(lines 462-487), as a function of the three extracted value strings, the
parent driver name and the unit-stripped base driver name. -/
def set_parent_bus_vendor_prod (vendorstr prodstr devicestr : Option String)
    (parentname devname : String) : Nat × Nat × Nat :=
  match prodstr, vendorstr with
  | some ps, some vs => (BUS_USB, strtol0 vs, strtol0 ps)
  | _, _ =>
    match devicestr, vendorstr with
    | some ds, some vs => (BUS_PCI, strtol0 vs, strtol0 ds)
    | _, _ =>
      if parentname = "atkbdc0" then
        if devname = "atkbd" then (BUS_I8042, PS2_KEYBOARD_VENDOR, PS2_KEYBOARD_PRODUCT)
        else if devname = "psm" then (BUS_I8042, PS2_MOUSE_VENDOR, PS2_MOUSE_GENERIC_PRODUCT)
        else (BUS_I8042, 0, 0)
      else (BUS_VIRTUAL, 0, 0)

/-- The pnp-id extraction of `set_parent` (lines 457-461): the _HID value,
with a value equal to the four-character literal "none" treated as
absent. -/
def set_parent_pnp_id (pnpinfo : List (String × String)) : Option String :=
  match get_kern_prop_value pnpinfo "_HID" with
  | some h => if h = "none" then none else some h
  | none => none

/-- The product string of `set_parent` (line 488):
"bus/vendor/product/0" in hexadecimal. -/
def set_parent_product_string (bus vendor prod : Nat) : String :=
  hexStr bus ++ "/" ++ hexStr vendor ++ "/" ++ hexStr prod ++ "/0"

/-- Outcome of `set_parent`: how many of the three per-unit sysctl queries
were issued, and the parent attached to the device (`none` when the
function returns without synthesizing one). -/
structure SetParentOutcome where
  queries : Nat
  parent : Option XorgParent
deriving DecidableEq, Repr

/-- Embedding of `set_parent` (lines 420-494), with the three per-unit
sysctl results supplied as inputs (`none` = the query fails): description,
plug-and-play info blob (already parsed into pairs, see
`get_kern_prop_value`), parent driver name.  Allocation of the parent
device is taken to succeed. -/
def set_parent_model (sysname : String) (desc : Option String)
    (pnpinfo : Option (List (String × String))) (parentQ : Option String) :
    SetParentOutcome :=
  let len := syspathlen_wo_units sysname
  if sysname.length = len then ⟨0, none⟩
  else
    let devname := String.mk (sysname.data.take len)
    match desc with
    | none => ⟨1, none⟩
    | some d =>
      let name := truncAtComma d
      match pnpinfo with
      | none => ⟨2, none⟩
      | some blob =>
        match parentQ with
        | none => ⟨3, none⟩
        | some parentname =>
          let vendorstr := get_kern_prop_value blob "vendor"
          let prodstr := get_kern_prop_value blob "product"
          let devicestr := get_kern_prop_value blob "device"
          let pnp_id := set_parent_pnp_id blob
          let bvp := set_parent_bus_vendor_prod vendorstr prodstr devicestr parentname devname
          let product := set_parent_product_string bvp.1 bvp.2.1 bvp.2.2
          ⟨3, some (create_xorg_parent sysname name (some product) pnp_id)⟩

/-- Bus/vendor/product derivation transcribed from the specification's
words (spec 4.4 step 5): vendor and product present yields the USB bus with
their numeric values; else vendor and device present yields the PCI bus;
else a parent driver name equal to the known PS/2 controller name yields
the legacy-keyboard-controller bus with the fixed keyboard pair for the
keyboard driver, the fixed mouse pair for the mouse driver, zero/zero
otherwise; else the virtual bus with zero/zero. -/
def busVendorProdSpec (vendorstr prodstr devicestr : Option String)
    (parentname devname : String) : Nat × Nat × Nat :=
  if vendorstr.isSome ∧ prodstr.isSome then
    (BUS_USB, strtol0 (vendorstr.getD ""), strtol0 (prodstr.getD ""))
  else if vendorstr.isSome ∧ devicestr.isSome then
    (BUS_PCI, strtol0 (vendorstr.getD ""), strtol0 (devicestr.getD ""))
  else if parentname = "atkbdc0" then
    if devname = "atkbd" then (BUS_I8042, PS2_KEYBOARD_VENDOR, PS2_KEYBOARD_PRODUCT)
    else if devname = "psm" then (BUS_I8042, PS2_MOUSE_VENDOR, PS2_MOUSE_GENERIC_PRODUCT)
    else (BUS_I8042, 0, 0)
  else (BUS_VIRTUAL, 0, 0)

/-! ## Helper lemmas -/

lemma find?_eq_resolveSpec (rules : List SubsystemConfig) (path : String) :
    rules.find? (fun sc => fnmatch sc.syspath path) = resolveSpec rules path := by
  induction rules with
  | nil => rfl
  | cons r rs ih =>
    by_cases h : fnmatch r.syspath path
    · simp [List.find?_cons, resolveSpec, h]
    · simp [List.find?_cons, resolveSpec, h, ih]

lemma gateRun_cached (v : Bool) (qs : List (Option Bool)) :
    gateRun ⟨some v⟩ qs = (qs.map (fun _ => (v, false)), ⟨some v⟩) := by
  induction qs with
  | nil => rfl
  | cons q qs ih => simp [gateRun, kernel_has_evdev_enabled, ih]

lemma head_of_dropWhile_ne {α : Type} [DecidableEq α] (a : α) (l : List α) (c : α)
    (t : List α) (h : l.dropWhile (fun x => x ≠ a) = c :: t) : c = a := by
  induction l with
  | nil => simp [List.dropWhile] at h
  | cons x xs ih =>
    by_cases hx : x = a
    · subst hx
      simp [List.dropWhile] at h
      exact h.1.symm
    · simp [List.dropWhile, hx] at h
      exact ih (by simpa using h)

/-! ## Claim theorems -/

/-- C1: for every triple of key/relative-axis/absolute-axis capability
bitmaps, the classifier of `create_evdev_handler` returns exactly the
classification of the spec's decision tree, and when the result is None no
markers are attached and no parent is synthesized. -/
theorem classify_matches_spec_tree (key_bits rel_bits abs_bits : Nat) :
    classify key_bits rel_bits abs_bits = classifySpec key_bits rel_bits abs_bits ∧
    (∀ name phys id, classify key_bits rel_bits abs_bits = IT_NONE →
      create_evdev_handler_model key_bits rel_bits abs_bits name phys id = none) := by
  constructor
  · exact classifyCore_eq_specCore _ _ _ _ _ _ _ _ _ _ _ _
  · intro name phys id h
    simp [create_evdev_handler_model, h]

set_option maxRecDepth 8192 in
theorem classify_matches_spec_tree_witness :
    classify 0 0 0 = classifySpec 0 0 0 ∧
      create_evdev_handler_model 0 0 0 "dev" "" ⟨0, 0, 0, 0⟩ = none :=
  ⟨(classify_matches_spec_tree 0 0 0).1,
   (classify_matches_spec_tree 0 0 0).2 "dev" "" ⟨0, 0, 0, 0⟩ (by decide)⟩

/-- C2: rule resolution scans the table in declaration order returning the
first glob match (refinement against the spec-worded scan); dispatch does
nothing without a rule or handler, does nothing when the skip flag is set
and the gate reports the uniform interface enabled, and otherwise invokes
the rule's handler; a ukbd0 path is skipped when the flag is enabled and
handled when disabled, and an event-node path always routes to the evdev
handler. -/
theorem rule_resolution_and_dispatch :
    (∀ path, get_subsystem_config_by_syspath path = resolveSpec subsystems path) ∧
    (∀ path flag, get_subsystem_config_by_syspath path = none →
      invoke_create_handler path flag = none) ∧
    (∀ path flag sc, get_subsystem_config_by_syspath path = some sc →
      sc.create_handler = none → invoke_create_handler path flag = none) ∧
    (∀ path sc, get_subsystem_config_by_syspath path = some sc →
      sc.flags &&& SCFLAG_SKIP_IF_EVDEV ≠ 0 → invoke_create_handler path true = none) ∧
    (∀ path flag sc, get_subsystem_config_by_syspath path = some sc →
      sc.create_handler ≠ none → ¬(sc.flags &&& SCFLAG_SKIP_IF_EVDEV ≠ 0 ∧ flag = true) →
      invoke_create_handler path flag = sc.create_handler) ∧
    invoke_create_handler (DEV_PATH_ROOT ++ "/ukbd0") true = none ∧
    invoke_create_handler (DEV_PATH_ROOT ++ "/ukbd0") false =
      some Handler.create_keyboard_handler ∧
    (∀ flag, invoke_create_handler (DEV_PATH_ROOT ++ "/input/event7") flag =
      some Handler.create_evdev_handler) := by
  refine ⟨fun path => find?_eq_resolveSpec subsystems path, ?_, ?_, ?_, ?_, ?_, ?_, ?_⟩
  · intro path flag h
    simp [invoke_create_handler, h]
  · intro path flag sc h hh
    simp [invoke_create_handler, h, hh]
  · intro path sc h hf
    simp [invoke_create_handler, h, hf]
  · intro path flag sc h hh hs
    simp only [invoke_create_handler, h]
    rw [if_neg hh, if_neg ?_]
    intro hc
    exact hs ⟨hc.1, hc.2⟩
  · decide
  · decide
  · intro flag
    cases flag <;> decide

theorem rule_resolution_and_dispatch_witness :
    invoke_create_handler "/var/log0" true = none :=
  rule_resolution_and_dispatch.2.1 "/var/log0" true (by decide)

/-- C10: the devpath-from-syspath and syspath-from-devpath conversions are
both the identity, so converting in either direction and back returns the
original string. -/
theorem path_accessors_roundtrip (p : String) :
    get_devpath_by_syspath p = p ∧ get_syspath_by_devpath p = p ∧
    get_syspath_by_devpath (get_devpath_by_syspath p) = p ∧
    get_devpath_by_syspath (get_syspath_by_devpath p) = p :=
  ⟨rfl, rfl, rfl, rfl⟩

/-- C3 counterexample: a blob carrying both a vendor and a product key
takes the USB branch of the precedence chain even under parent "atkbdc0"
with base driver name "atkbd", so the claim's "yields the fixed
PS/2-keyboard pair regardless of blob content" is false on the code. -/
theorem atkbd_pair_not_blob_independent :
    set_parent_bus_vendor_prod (some "0x1") (some "0x2") none "atkbdc0" "atkbd" =
      (BUS_USB, 1, 2) ∧
    set_parent_bus_vendor_prod (some "0x1") (some "0x2") none "atkbdc0" "atkbd" ≠
      (BUS_I8042, PS2_KEYBOARD_VENDOR, PS2_KEYBOARD_PRODUCT) := by
  decide

/-- C3 (amended): the derivation follows the fixed precedence of the
spec's words (vendor and product yield USB, else vendor and device yield
PCI, else the atkbdc0 parent yields the I8042 bus with the fixed
keyboard/mouse/zero pairs by base driver name, else the virtual bus with
zero/zero); a base name "atkbd" under parent "atkbdc0" yields the fixed
PS/2-keyboard pair whenever the blob supplies neither a vendor+product nor
a vendor+device key pair; the spec's two blob examples hold; and the
product string is rendered "bus/vendor/product/0" in hexadecimal. -/
theorem set_parent_identity_precedence (vendorstr prodstr devicestr : Option String)
    (parentname devname : String) :
    set_parent_bus_vendor_prod vendorstr prodstr devicestr parentname devname =
      busVendorProdSpec vendorstr prodstr devicestr parentname devname ∧
    (¬(vendorstr.isSome ∧ prodstr.isSome) → ¬(vendorstr.isSome ∧ devicestr.isSome) →
      set_parent_bus_vendor_prod vendorstr prodstr devicestr "atkbdc0" "atkbd" =
        (BUS_I8042, PS2_KEYBOARD_VENDOR, PS2_KEYBOARD_PRODUCT)) ∧
    set_parent_bus_vendor_prod (some "0x1") (some "0x2") none parentname devname =
      (BUS_USB, 1, 2) ∧
    set_parent_bus_vendor_prod (some "0x1") none (some "0x2") parentname devname =
      (BUS_PCI, 1, 2) ∧
    (∀ bus vendor prod, set_parent_product_string bus vendor prod =
      hexStr bus ++ "/" ++ hexStr vendor ++ "/" ++ hexStr prod ++ "/0") := by
  refine ⟨?_, ?_, ?_, ?_, fun bus vendor prod => rfl⟩
  · rcases vendorstr with _ | v <;> rcases prodstr with _ | p <;>
      rcases devicestr with _ | d <;>
      simp [set_parent_bus_vendor_prod, busVendorProdSpec]
  · intro h1 h2
    rcases vendorstr with _ | v <;> rcases prodstr with _ | p <;>
      rcases devicestr with _ | d <;>
      simp_all [set_parent_bus_vendor_prod]
  · show (BUS_USB, strtol0 "0x1", strtol0 "0x2") = (BUS_USB, 1, 2)
    decide
  · show (BUS_PCI, strtol0 "0x1", strtol0 "0x2") = (BUS_PCI, 1, 2)
    decide

theorem set_parent_identity_precedence_witness :
    set_parent_bus_vendor_prod none none none "atkbdc0" "atkbd" =
      (BUS_I8042, PS2_KEYBOARD_VENDOR, PS2_KEYBOARD_PRODUCT) :=
  (set_parent_identity_precedence none none none "atkbdc0" "atkbd").2.1
    (by decide) (by decide)

/-- C4: evaluation of `create_xorg_parent` at a call shape reached from
`set_parent` with a retained plug-and-play id.  The NAME property, the name
attribute and the PRODUCT property carry the given display name and
product string as the claim states, but the "id" attribute receives the
product string, not the given plug-and-play id (line 273 of the source
inserts `product` under the guard testing `pnp_id`). -/
theorem create_xorg_parent_id_attr_bug :
    (create_xorg_parent "atkbd0" "AT keyboard" (some "11/1/1/0")
        (some "PNP0303")).props = [("NAME", "AT keyboard"), ("PRODUCT", "11/1/1/0")] ∧
    (create_xorg_parent "atkbd0" "AT keyboard" (some "11/1/1/0")
        (some "PNP0303")).sysattrs = [("name", "AT keyboard"), ("id", "11/1/1/0")] ∧
    ("11/1/1/0" : String) ≠ "PNP0303" := by
  decide

/-- C5: a capability-gate call whose feature-flag query fails returns
false and leaves the cache unset, so any next call queries again; a
successful query caches the read value; and with a cached value every call
returns it without re-querying (shown one call at a time and over whole
call sequences). -/
theorem capability_gate_memoization :
    kernel_has_evdev_enabled ⟨none⟩ none = (⟨none⟩, false, true) ∧
    (∀ q, (kernel_has_evdev_enabled ⟨none⟩ q).2.2 = true) ∧
    (∀ v, kernel_has_evdev_enabled ⟨none⟩ (some v) = (⟨some v⟩, v, true)) ∧
    (∀ v q, kernel_has_evdev_enabled ⟨some v⟩ q = (⟨some v⟩, v, false)) ∧
    (∀ v qs, gateRun ⟨some v⟩ qs = (qs.map (fun _ => (v, false)), ⟨some v⟩)) := by
  refine ⟨rfl, fun q => ?_, fun v => rfl, fun v q => rfl, fun v qs => gateRun_cached v qs⟩
  cases q <;> rfl

/-- C6: a device short name with no trailing decimal digits makes
`set_parent` return before any per-unit property query with no parent
produced, and a failure of any of the three per-unit queries makes it
return silently with no parent produced. -/
theorem set_parent_error_paths :
    (∀ sysname d b p, syspathlen_wo_units sysname = sysname.length →
      set_parent_model sysname d b p = ⟨0, none⟩) ∧
    (∀ sysname b p, syspathlen_wo_units sysname ≠ sysname.length →
      set_parent_model sysname none b p = ⟨1, none⟩) ∧
    (∀ sysname d p, syspathlen_wo_units sysname ≠ sysname.length →
      set_parent_model sysname (some d) none p = ⟨2, none⟩) ∧
    (∀ sysname d b, syspathlen_wo_units sysname ≠ sysname.length →
      set_parent_model sysname (some d) (some b) none = ⟨3, none⟩) := by
  refine ⟨?_, ?_, ?_, ?_⟩
  · intro sysname d b p h
    simp [set_parent_model, h.symm]
  · intro sysname b p h
    simp [set_parent_model, Ne.symm h]
  · intro sysname d p h
    simp [set_parent_model, Ne.symm h]
  · intro sysname d b h
    simp [set_parent_model, Ne.symm h]

theorem set_parent_error_paths_witness :
    set_parent_model "atkbd" none none none = ⟨0, none⟩ ∧
    set_parent_model "psm0" none none none = ⟨1, none⟩ ∧
    set_parent_model "psm0" (some "PS/2 mouse") none none = ⟨2, none⟩ ∧
    set_parent_model "psm0" (some "PS/2 mouse") (some []) none = ⟨3, none⟩ :=
  ⟨set_parent_error_paths.1 "atkbd" none none none (by decide),
   set_parent_error_paths.2.1 "psm0" none none (by decide),
   set_parent_error_paths.2.2.1 "psm0" "PS/2 mouse" none (by decide),
   set_parent_error_paths.2.2.2 "psm0" "PS/2 mouse" [] (by decide)⟩

/-- C7: from a plug-and-play blob the parsing step extracts the vendor,
product, device and _HID values (first binding of each key), and a _HID
value equal to the four-character literal "none" is treated as absent, so
no plug-and-play id reaches the synthesized parent (its sysattr list gets
no id entry). -/
theorem pnp_blob_extraction :
    (∀ v p dvc hid,
      get_kern_prop_value [("vendor", v), ("product", p), ("device", dvc), ("_HID", hid)]
          "vendor" = some v ∧
      get_kern_prop_value [("vendor", v), ("product", p), ("device", dvc), ("_HID", hid)]
          "product" = some p ∧
      get_kern_prop_value [("vendor", v), ("product", p), ("device", dvc), ("_HID", hid)]
          "device" = some dvc ∧
      get_kern_prop_value [("vendor", v), ("product", p), ("device", dvc), ("_HID", hid)]
          "_HID" = some hid) ∧
    (∀ blob, set_parent_pnp_id blob = none ↔
      (get_kern_prop_value blob "_HID" = none ∨
        get_kern_prop_value blob "_HID" = some "none")) ∧
    (∀ blob h, get_kern_prop_value blob "_HID" = some h → h ≠ "none" →
      set_parent_pnp_id blob = some h) ∧
    (∀ blob sysname d pn par, syspathlen_wo_units sysname ≠ sysname.length →
      get_kern_prop_value blob "_HID" = some "none" →
      (set_parent_model sysname (some d) (some blob) (some pn)).parent = some par →
      par.sysattrs = [("name", truncAtComma d)]) := by
  refine ⟨?_, ?_, ?_, ?_⟩
  · intro v p dvc hid
    refine ⟨?_, ?_, ?_, ?_⟩ <;> simp [get_kern_prop_value, List.find?_cons]
  · intro blob
    rcases hg : get_kern_prop_value blob "_HID" with _ | h
    · simp [set_parent_pnp_id, hg]
    · by_cases hn : h = "none"
      · subst hn
        simp [set_parent_pnp_id, hg]
      · simp [set_parent_pnp_id, hg, hn]
  · intro blob h hg hn
    simp [set_parent_pnp_id, hg, hn]
  · intro blob sysname d pn par hlen hg hpar
    have hpnp : set_parent_pnp_id blob = none := by simp [set_parent_pnp_id, hg]
    simp only [set_parent_model, Ne.symm hlen, if_false, if_neg (Ne.symm hlen)] at hpar
    rw [hpnp] at hpar
    simp only [create_xorg_parent, Option.some.injEq] at hpar
    rw [← hpar]
    simp

theorem pnp_blob_extraction_witness :
    set_parent_pnp_id [("_HID", "PNP0303")] = some "PNP0303" :=
  pnp_blob_extraction.2.2.1 [("_HID", "PNP0303")] "PNP0303" (by decide) (by decide)

/-- C8: the display name is the input truncated at the first comma (the
whole string when it has no comma): the truncated name contains no comma,
is a prefix of the input whose remainder starts at the first comma, the
spec's example holds, and the same rule supplies the NAME carried by the
parent in both the capability-interface path (create_evdev_handler) and
the legacy path (set_parent). -/
theorem display_name_truncation :
    truncAtComma "Generic, Inc Mouse" = "Generic" ∧
    (∀ s : String, (',' ∉ s.data) → truncAtComma s = s) ∧
    (∀ s : String, ',' ∉ (truncAtComma s).data) ∧
    (∀ s : String, (truncAtComma s).data ++ s.data.dropWhile (fun c => c ≠ ',') = s.data) ∧
    (∀ (s : String) (c : Char) (t : List Char),
      s.data.dropWhile (fun x => x ≠ ',') = c :: t → c = ',') ∧
    (∀ key_bits rel_bits abs_bits name phys id out,
      create_evdev_handler_model key_bits rel_bits abs_bits name phys id = some out →
      out.parent.props.head? = some ("NAME", truncAtComma name)) ∧
    (∀ sysname d b p par, (set_parent_model sysname (some d) b p).parent = some par →
      par.props.head? = some ("NAME", truncAtComma d)) := by
  refine ⟨by decide, ?_, ?_, ?_, ?_, ?_, ?_⟩
  · intro s h
    cases s with
    | mk data =>
      exact congrArg String.mk (List.takeWhile_eq_self_iff.mpr (fun x hx => by
        simp only [ne_eq, decide_not, Bool.not_eq_true', decide_eq_false_iff_not]
        exact fun hEq => h (hEq ▸ hx)))
  · intro s hmem
    have := List.mem_takeWhile_imp hmem
    simp at this
  · intro s
    show s.data.takeWhile (fun c => c ≠ ',') ++ s.data.dropWhile (fun c => c ≠ ',') = s.data
    exact List.takeWhile_append_dropWhile _ _
  · intro s c t hh
    exact head_of_dropWhile_ne ',' s.data c t hh
  · intro key_bits rel_bits abs_bits name phys id out hout
    by_cases hN : classify key_bits rel_bits abs_bits = IT_NONE
    · simp [create_evdev_handler_model, hN] at hout
    · simp only [create_evdev_handler_model, hN, if_false, ite_false,
        Option.some.injEq] at hout
      rw [← hout]
      simp [create_xorg_parent]
  · intro sysname d b p par hpar
    by_cases hlen : sysname.length = syspathlen_wo_units sysname
    · simp [set_parent_model, hlen] at hpar
    · cases b with
      | none => simp [set_parent_model, hlen] at hpar
      | some blob =>
        cases p with
        | none => simp [set_parent_model, hlen] at hpar
        | some pn =>
          simp only [set_parent_model, if_neg hlen] at hpar
          simp only [Option.some.injEq] at hpar
          rw [← hpar]
          simp [create_xorg_parent]

theorem display_name_truncation_witness :
    truncAtComma "uinput" = "uinput" :=
  display_name_truncation.2.1 "uinput" (by decide)

/-- C9: every non-None classification attaches the primary is-an-input
marker first, followed by exactly the type-specific markers: key+keyboard
for Keyboard, mouse for Mouse, mouse+touchpad for Touchpad, touchscreen
for Touchscreen, joystick for Joystick, tablet for Tablet. -/
theorem classification_markers :
    set_input_device_type_markers IT_KEYBOARD =
      [("ID_INPUT", "1"), ("ID_INPUT_KEY", "1"), ("ID_INPUT_KEYBOARD", "1")] ∧
    set_input_device_type_markers IT_MOUSE =
      [("ID_INPUT", "1"), ("ID_INPUT_MOUSE", "1")] ∧
    set_input_device_type_markers IT_TOUCHPAD =
      [("ID_INPUT", "1"), ("ID_INPUT_MOUSE", "1"), ("ID_INPUT_TOUCHPAD", "1")] ∧
    set_input_device_type_markers IT_TOUCHSCREEN =
      [("ID_INPUT", "1"), ("ID_INPUT_TOUCHSCREEN", "1")] ∧
    set_input_device_type_markers IT_JOYSTICK =
      [("ID_INPUT", "1"), ("ID_INPUT_JOYSTICK", "1")] ∧
    set_input_device_type_markers IT_TABLET =
      [("ID_INPUT", "1"), ("ID_INPUT_TABLET", "1")] ∧
    (∀ t, (set_input_device_type_markers t).head? = some ("ID_INPUT", "1")) :=
  ⟨rfl, rfl, rfl, rfl, rfl, rfl, fun _ => rfl⟩

end UdevDevd
